import Mathlib

/-!
Verification of the express-standard-template2 logging / error-handling /
rate-limiting layer, shallowly embedded from the TypeScript sources:

* `src/utils/logger.ts`      — winston logger configuration (levels, transports)
* `src/middlewares/middlewares.ts` — request/response/performance middleware
* `src/middlewares/logging.ts`     — Morgan HTTP access-log middleware
* `src/middlewares/errorHandler.ts` — AppError, errorHandler, notFoundHandler
* `src/app.ts`               — route and middleware wiring

Environments are strings; the value embedded as `env` below is the result of
`process.env.NODE_ENV ?? 'development'`.
-/

namespace Tmpl

/-- The five severities of the custom `levels` map in `src/utils/logger.ts`. -/
inductive Level where
  | error
  | warn
  | info
  | http
  | debug
deriving DecidableEq, Repr

/-- The numeric priorities from the `levels` object in `src/utils/logger.ts`
(`error: 0, warn: 1, info: 2, http: 3, debug: 4`); lower = higher priority. -/
def Level.priority : Level → Nat
  | .error => 0
  | .warn => 1
  | .info => 2
  | .http => 3
  | .debug => 4

/-- `level()` from `src/utils/logger.ts`: `debug` when the environment is
`development`, `warn` otherwise. -/
def loggerLevel (env : String) : Level :=
  if env = "development" then Level.debug else Level.warn

/-- A winston transport, reduced to the single configuration field that decides
record admission: the optional per-transport `level` override. -/
structure Transport where
  levelOverride : Option Level
deriving DecidableEq, Repr

/-- The `Console` transport of `src/utils/logger.ts`: no `level` field. -/
def consoleTransport : Transport := ⟨none⟩

/-- The `error.log` `File` transport of `src/utils/logger.ts`: `level: 'error'`. -/
def errorFileTransport : Transport := ⟨some Level.error⟩

/-- The `combined.log` `File` transport of `src/utils/logger.ts`: no `level`
field of its own. -/
def combinedFileTransport : Transport := ⟨none⟩

/-- The whole logger configuration built by `createLogger` in
`src/utils/logger.ts`: the environment-derived logger level and the three
transports, in source order. -/
structure LoggerConfig where
  level : Level
  transports : List Transport
deriving DecidableEq, Repr

/-- `winston.createLogger({ level: level(), transports, ... })` from
`src/utils/logger.ts`, as a function of the environment string. The code
performs no validation of `env`: every string (the empty string included)
yields a configuration. -/
def configure (env : String) : LoggerConfig :=
  { level := loggerLevel env
    transports := [consoleTransport, errorFileTransport, combinedFileTransport] }

/-- winston's record-admission rule (`TransportStream._write`): a transport
accepts a record iff the record's priority number is ≤ the priority number of
the transport's own `level`, falling back to the logger's `level` when the
transport sets none. -/
def transportAccepts (env : String) (t : Transport) (sev : Level) : Bool :=
  sev.priority ≤ (t.levelOverride.getD (loggerLevel env)).priority

/-- Whether the console sink of `src/utils/logger.ts` emits a record of
severity `sev` under environment `env`. -/
def consoleAccepts (env : String) (sev : Level) : Bool :=
  transportAccepts env consoleTransport sev

/-- Whether the `combined.log` file sink emits a record of severity `sev`
under environment `env`. -/
def combinedFileAccepts (env : String) (sev : Level) : Bool :=
  transportAccepts env combinedFileTransport sev

/-- Whether the `error.log` file sink emits a record of severity `sev`
under environment `env`. -/
def errorFileAccepts (env : String) (sev : Level) : Bool :=
  transportAccepts env errorFileTransport sev

/-- The `skip` predicate installed by `createMorganMiddleware` in
`src/middlewares/logging.ts`: in development skip responses with status
`< 400`, in production skip responses with status `≥ 400`, otherwise the
morgan options carry no `skip` entry, so nothing is skipped. -/
def morganSkip (env : String) (status : Nat) : Bool :=
  if env = "development" then status < 400
  else if env = "production" then 400 ≤ status
  else false

/-! ## Error classifier (`src/middlewares/errorHandler.ts`) -/

/-- The shape of a failure object reaching `errorHandler`. `isAppError`
embeds `err instanceof AppError`; `statusCode` is the `AppError` status and is
only read by the handler when `isAppError` is true; `name`, `message`, `stack`
are the JS `Error` fields; `code` is the optional numeric `code` field checked
for Mongo duplicate keys; `validationMessages` are the `message` strings of
`err.errors`, in order, for a `ValidationError`. -/
structure Failure where
  isAppError : Bool
  statusCode : Nat
  name : String
  message : String
  code : Option Int
  validationMessages : List String
  stack : String
deriving DecidableEq, Repr

/-- Instances of the `AppError` class of `src/middlewares/errorHandler.ts`:
the constructor never assigns `this.name`, so the inherited `Error` name
`"Error"` is kept. Any failure that claims to be an `AppError` therefore has
`name = "Error"`. -/
def Failure.wellFormed (f : Failure) : Prop :=
  f.isAppError = true → f.name = "Error"

instance (f : Failure) : Decidable f.wellFormed := by
  unfold Failure.wellFormed; infer_instance

/-- `new AppError(message, statusCode)` with the constructor's fixed
`name = "Error"` and no Mongo/validation payload. -/
def appError (message : String) (statusCode : Nat) (stack : String) : Failure :=
  { isAppError := true
    statusCode := statusCode
    name := "Error"
    message := message
    code := none
    validationMessages := []
    stack := stack }

/-- A plain `new Error(message)` (not an `AppError`). -/
def plainError (message : String) (stack : String) : Failure :=
  { isAppError := false
    statusCode := 0
    name := "Error"
    message := message
    code := none
    validationMessages := []
    stack := stack }

/-- The `(statusCode, message)` pair the handler derives from a failure. -/
structure ErrResult where
  statusCode : Nat
  message : String
deriving DecidableEq, Repr

/-- The classification performed by `errorHandler` in
`src/middlewares/errorHandler.ts`, statement for statement:

* `let error = err instanceof AppError ? err : new AppError(err.message)`
  (the `AppError` constructor defaults `statusCode` to 500);
* five successive non-exclusive `if` statements reassigning `error` on
  `CastError`, `MongoError && code === 11000`, `ValidationError`
  (message = `Object.values(err.errors).map(v => v.message).join(', ')`),
  `JsonWebTokenError`, `TokenExpiredError`;
* `statusCode = error.statusCode || 500` and
  `message = error.message || 'Server Error'` (JS falsiness: `0` and `""`). -/
def classify (f : Failure) : ErrResult :=
  let e0 : ErrResult :=
    if f.isAppError then ⟨f.statusCode, f.message⟩ else ⟨500, f.message⟩
  let e1 := if f.name = "CastError" then ⟨404, "Resource not found"⟩ else e0
  let e2 :=
    if f.name = "MongoError" ∧ f.code = some 11000 then
      ⟨400, "Duplicate field value entered"⟩
    else e1
  let e3 :=
    if f.name = "ValidationError" then
      ⟨400, String.intercalate ", " f.validationMessages⟩
    else e2
  let e4 := if f.name = "JsonWebTokenError" then ⟨401, "Invalid token"⟩ else e3
  let e5 := if f.name = "TokenExpiredError" then ⟨401, "Token expired"⟩ else e4
  ⟨if e5.statusCode = 0 then 500 else e5.statusCode,
   if e5.message = "" then "Server Error" else e5.message⟩

/-- The HTTP error response sent by `errorHandler`:
`res.status(statusCode).json({ error: { message, ...(dev && {stack}) }, success: false })`. -/
structure ErrResponse where
  status : Nat
  success : Bool
  message : String
  stack : Option String
deriving DecidableEq, Repr

/-- The response `errorHandler` produces for failure `f` under environment
`env`: the classified status and message, `success: false`, and the original
failure's `stack` exactly when `process.env.NODE_ENV === 'development'`. -/
def errorResponse (env : String) (f : Failure) : ErrResponse :=
  { status := (classify f).statusCode
    success := false
    message := (classify f).message
    stack := if env = "development" then some f.stack else none }

/-- The specification's classification table, written word for word from the
spec ("first match wins, else default"): a recognized application error keeps
its own statusCode and message; `CastError` → 404 "Resource not found";
duplicate key → 400 "Duplicate field value entered"; validation → 400 with the
comma-separated join of the field messages; invalid token → 401; expired token
→ 401; anything else → 500 with the original failure message, or
"Server Error" if that message is empty. (Spec-side definition, used only to
compare against `classify`.) -/
def specClassify (f : Failure) : ErrResult :=
  if f.isAppError then ⟨f.statusCode, f.message⟩
  else if f.name = "CastError" then ⟨404, "Resource not found"⟩
  else if f.name = "MongoError" ∧ f.code = some 11000 then
    ⟨400, "Duplicate field value entered"⟩
  else if f.name = "ValidationError" then
    ⟨400, String.intercalate ", " f.validationMessages⟩
  else if f.name = "JsonWebTokenError" then ⟨401, "Invalid token"⟩
  else if f.name = "TokenExpiredError" then ⟨401, "Token expired"⟩
  else ⟨500, if f.message = "" then "Server Error" else f.message⟩

/-- The amended table: as `specClassify`, but the two JS-falsiness
substitutions of the source's final lines (`statusCode || 500`,
`message || 'Server Error'`) apply to every row's result, so a recognized
application error with an empty message also answers "Server Error" (and a
zero statusCode becomes 500). -/
def specClassifyAmended (f : Failure) : ErrResult :=
  let r :=
    if f.isAppError then ErrResult.mk f.statusCode f.message
    else if f.name = "CastError" then ⟨404, "Resource not found"⟩
    else if f.name = "MongoError" ∧ f.code = some 11000 then
      ⟨400, "Duplicate field value entered"⟩
    else if f.name = "ValidationError" then
      ⟨400, String.intercalate ", " f.validationMessages⟩
    else if f.name = "JsonWebTokenError" then ⟨401, "Invalid token"⟩
    else if f.name = "TokenExpiredError" then ⟨401, "Token expired"⟩
    else ⟨500, f.message⟩
  ⟨if r.statusCode = 0 then 500 else r.statusCode,
   if r.message = "" then "Server Error" else r.message⟩

/-- The failure `next(new Error('This is a test error for logging'))` raised
by the `GET /error` route in `src/app.ts`. -/
def errorRouteFailure : Failure :=
  plainError "This is a test error for logging" "Error: This is a test error for logging\n    at stack"

/-- The failure `new AppError(`Route ${req.originalUrl} not found`, 404)`
created by `notFoundHandler` in `src/middlewares/errorHandler.ts`. -/
def notFoundFailure (path : String) : Failure :=
  appError ("Route " ++ path ++ " not found") 404 "Error: route not found stack"

/-! ## Request instrumentation (`src/middlewares/middlewares.ts`) -/

/-- The request fields the instrumentation middleware reads. -/
structure Req where
  method : String
  url : String
  ip : String
  userAgent : String
deriving DecidableEq, Repr

/-- The metadata keys that appear across the structured log calls of
`src/middlewares/middlewares.ts`; a key absent from a given call is `none`. -/
structure Meta where
  ip : Option String
  method : Option String
  url : Option String
  userAgent : Option String
  statusCode : Option Nat
  responseTime : Option Nat
  duration : Option String
deriving DecidableEq, Repr

/-- A structured log record handed to the winston logger. -/
structure LogRecord where
  level : Level
  message : String
  meta : Meta
deriving DecidableEq, Repr

/-- `requestLogger`: `logger.info('Incoming request', { ip, method, url,
userAgent })`. -/
def incomingRecord (req : Req) : LogRecord :=
  { level := Level.info
    message := "Incoming request"
    meta :=
      { ip := some req.ip
        method := some req.method
        url := some req.url
        userAgent := some req.userAgent
        statusCode := none
        responseTime := none
        duration := none } }

/-- `responseLogger`'s wrapped `res.send`: `logger.info('Outgoing response',
{ method, responseTime, statusCode, url })` — note it carries no `ip`. -/
def outgoingRecord (req : Req) (status responseTime : Nat) : LogRecord :=
  { level := Level.info
    message := "Outgoing response"
    meta :=
      { ip := none
        method := some req.method
        url := some req.url
        userAgent := none
        statusCode := some status
        responseTime := some responseTime
        duration := none } }

/-- `performanceMonitor`'s warning: `logger.warn('Slow request detected',
{ duration: `${String(duration)}ms`, ip, method, url })`. -/
def slowRequestRecord (req : Req) (duration : Nat) : LogRecord :=
  { level := Level.warn
    message := "Slow request detected"
    meta :=
      { ip := some req.ip
        method := some req.method
        url := some req.url
        userAgent := none
        statusCode := none
        responseTime := none
        duration := some (toString duration ++ "ms") } }

/-- The records `performanceMonitor` emits on the response's `finish` event
for a request whose handling took `duration` ms: one warning when
`duration > 1000`, none otherwise. -/
def slowWarnRecords (req : Req) (duration : Nat) : List LogRecord :=
  if 1000 < duration then [slowRequestRecord req duration] else []

/-- The single `logger.error('Error occurred:', {...})` call at the top of
`errorHandler`. The source's metadata also nests the failure's
message/name/stack and the request body/params/query; only the request
identity keys are carried here. -/
def errorOccurredRecord (f : Failure) (req : Req) : LogRecord :=
  { level := Level.error
    message := "Error occurred:"
    meta :=
      { ip := some req.ip
        method := some req.method
        url := some req.url
        userAgent := some req.userAgent
        statusCode := none
        responseTime := none
        duration := some f.stack } }

/-- One run of `errorHandler` for failure `f`: the records it emits (exactly
the one unconditional `logger.error` call) and the HTTP response it sends. -/
def errorHandlerRun (env : String) (f : Failure) (req : Req) :
    List LogRecord × ErrResponse :=
  ([errorOccurredRecord f req], errorResponse env f)

/-- The access-log line morgan writes through the winston `stream`
(`logger.http(message.trim())`): the development format appends the
user-agent, the production/default format does not. -/
def morganRecord (env : String) (req : Req) (status : Nat) : LogRecord :=
  { level := Level.http
    message :=
      req.method ++ " " ++ req.url ++ " " ++ toString status ++ " - " ++ req.ip
        ++ (if env = "development" then " - " ++ req.userAgent else "")
    meta :=
      { ip := none, method := none, url := none, userAgent := none
        statusCode := none, responseTime := none, duration := none } }

/-- What a route handler contributes to a request's log trace: the records it
emits itself, how many times it invokes the (wrapped) `res.send`, and the
response status code. -/
structure HandlerRun where
  logs : List LogRecord
  sends : Nat
  status : Nat
deriving DecidableEq, Repr

/-- A record is the per-request start record iff it is the info-level
`'Incoming request'` record emitted by `requestLogger`. -/
def isStartRecord (r : LogRecord) : Bool :=
  r.level == Level.info && r.message == "Incoming request"

/-- A record is the per-request finish record iff it is the info-level
`'Outgoing response'` record emitted by `responseLogger`'s `send` wrapper. -/
def isFinishRecord (r : LogRecord) : Bool :=
  r.level == Level.info && r.message == "Outgoing response"

/-- The ordered list of records one request produces under the middleware
stack of `src/app.ts`: `requestLogger` fires on arrival, the handler's own
records follow, each call of the wrapped `res.send` emits one
`'Outgoing response'` record, and morgan plus `performanceMonitor` fire on the
response's `finish` event. -/
def requestTrace (env : String) (req : Req) (hr : HandlerRun)
    (responseTime duration : Nat) : List LogRecord :=
  incomingRecord req ::
    (hr.logs
      ++ List.replicate hr.sends (outgoingRecord req hr.status responseTime)
      ++ (if morganSkip env hr.status then [] else [morganRecord env req hr.status])
      ++ slowWarnRecords req duration)

/-! ## Admission limiter (`src/middlewares/rateLimit.ts`, not in the sources) -/

/-- Modelled from the spec: `src/middlewares/rateLimit.ts` is absent from the
sources (only its callers in `src/app.ts` and the docs remain). A tier is one
of the preconfigured `{windowDurationMs, maxRequests}` pairs. -/
structure Tier where
  windowMs : Nat
  maxRequests : Nat
deriving DecidableEq, Repr

/-- Modelled from the spec: the per-key window state `{window start time,
count}` of the absent `src/middlewares/rateLimit.ts`. -/
structure RateLimitWindow where
  start : Nat
  count : Nat
deriving DecidableEq, Repr

/-- Modelled from the spec: `tryAdmit(key, tier)` of the absent
`src/middlewares/rateLimit.ts`, for one key whose current window state is
given. If no window exists or the current window has elapsed, start a fresh
window with count = 1 and allow; else increment the count and allow iff
count ≤ maxRequests. -/
def tryAdmit (tier : Tier) (now : Nat) :
    Option RateLimitWindow → Bool × RateLimitWindow
  | none => (true, ⟨now, 1⟩)
  | some w =>
    if w.start + tier.windowMs ≤ now then (true, ⟨now, 1⟩)
    else (decide (w.count + 1 ≤ tier.maxRequests), ⟨w.start, w.count + 1⟩)

/-- Modelled from the spec: the allow/deny answers for one key across a
sequence of request times, threading the window state through `tryAdmit`. -/
def runRequests (tier : Tier) :
    Option RateLimitWindow → List Nat → List Bool
  | _, [] => []
  | w, t :: ts =>
    let r := tryAdmit tier t w
    r.1 :: runRequests tier (some r.2) ts

/-- Modelled from the spec: the strict tier (5 requests per 15 minutes)
guarding `GET /limiter/strict`. -/
def strictTier : Tier := ⟨900000, 5⟩

/-- Modelled from the spec: the auth tier (10 requests per 15 minutes)
guarding `POST /limiter/auth`. -/
def authTier : Tier := ⟨900000, 10⟩

/-! ## Concrete sample inputs used by witnesses and counterexamples -/

/-- A sample request. -/
def sampleReq : Req := ⟨"GET", "/", "1.2.3.4", "curl/8.14.1"⟩

/-- A recognized application error with an empty message:
`new AppError('', 404)`. -/
def emptyMsgAppError : Failure := appError "" 404 "Error\n    at stack"

/-- A Mongoose bad-ObjectId failure (`err.name === 'CastError'`). -/
def castFailure : Failure :=
  { isAppError := false
    statusCode := 0
    name := "CastError"
    message := "Cast to ObjectId failed"
    code := none
    validationMessages := []
    stack := "CastError stack" }

end Tmpl

open Tmpl

/-! ## Helper lemmas -/

lemma loggerLevel_nondev (env : String) (h : env ≠ "development") :
    loggerLevel env = Level.warn := by
  simp [loggerLevel, h]

lemma morganSkip_other (env : String) (h1 : env ≠ "development")
    (h2 : env ≠ "production") (status : Nat) :
    morganSkip env status = false := by
  simp [morganSkip, h1, h2]

lemma runRequests_fills (tier : Tier) (s : Nat) (ts : List Nat) (c : Nat)
    (hwin : ∀ t ∈ ts, t < s + tier.windowMs)
    (hc : c + ts.length = tier.maxRequests + 1) (hle : c ≤ tier.maxRequests) :
    runRequests tier (some ⟨s, c⟩) ts
      = List.replicate (tier.maxRequests - c) true ++ [false] := by
  induction ts generalizing c with
  | nil =>
    simp at hc
    omega
  | cons t ts ih =>
    have ht : ¬ (s + tier.windowMs ≤ t) := by
      have := hwin t (by simp)
      omega
    simp only [runRequests, tryAdmit, if_neg ht]
    rcases ts with _ | ⟨t2, ts2⟩
    · have hceq : c = tier.maxRequests := by
        simp at hc
        omega
      have hnot : ¬ (c + 1 ≤ tier.maxRequests) := by omega
      simp [runRequests, hceq, decide_eq_false hnot]
    · have h1 : c + 1 ≤ tier.maxRequests := by
        simp at hc
        omega
      rw [ih (c + 1) (fun t' ht' => hwin t' (by simp [ht']))
        (by simp at hc ⊢; omega) h1]
      have hrep : tier.maxRequests - c = (tier.maxRequests - (c + 1)) + 1 := by
        omega
      rw [hrep, List.replicate_succ]
      simp [decide_eq_true h1]

/-! ## Claims -/

/-- C5: a request whose handling duration exceeds 1000 ms produces exactly one
additional warn-level "slow request" record (the `performanceMonitor` warning),
and a request under 1000 ms produces none. -/
theorem C5_slow_request (req : Req) (d : Nat) :
    (1000 < d →
      slowWarnRecords req d = [slowRequestRecord req d] ∧
      (slowWarnRecords req d).length = 1 ∧
      (slowRequestRecord req d).level = Level.warn) ∧
    (d < 1000 → (slowWarnRecords req d).length = 0) := by
  constructor
  · intro h
    simp [slowWarnRecords, h, slowRequestRecord]
  · intro h
    have h2 : ¬ (1000 < d) := by omega
    simp [slowWarnRecords, h2]

/-- Witness for C5 at durations 1500 ms and 999 ms. -/
theorem C5_slow_request_witness :
    (slowWarnRecords sampleReq 1500).length = 1 ∧
    (slowWarnRecords sampleReq 999).length = 0 :=
  ⟨((C5_slow_request sampleReq 1500).1 (by norm_num)).2.1,
    (C5_slow_request sampleReq 999).2 (by norm_num)⟩

/-- C10: the Morgan skip predicate is inverted between environments — in
production every response with status ≥ 400 is skipped (only successes are
access-logged), in development every response with status < 400 is skipped
(only failures are access-logged), and in any other environment nothing is
skipped. -/
theorem C10_morgan_skip (env : String) (status : Nat) :
    morganSkip "production" status = decide (400 ≤ status) ∧
    morganSkip "development" status = decide (status < 400) ∧
    (env ≠ "development" → env ≠ "production" → morganSkip env status = false) := by
  refine ⟨?_, ?_, fun h1 h2 => morganSkip_other env h1 h2 status⟩
  · simp [morganSkip]
  · simp [morganSkip]

/-- Witness for C10 in the environment `staging` at status 200. -/
theorem C10_morgan_skip_witness : morganSkip "staging" 200 = false :=
  (C10_morgan_skip "staging" 200).2.2 (by decide) (by decide)

/-- C4: for every environment, if the active logger threshold is `s1` then a
record at any severity `s2` of numerically larger (lower-priority) level is
suppressed from console output; in general a transport emits a record only if
its severity is numerically ≤ the transport's effective minimum level. -/
theorem C4_severity_suppression (env : String) (s1 s2 : Level)
    (h12 : s1.priority < s2.priority) (hthr : loggerLevel env = s1) :
    consoleAccepts env s2 = false ∧
    (∀ t : Transport, ∀ sev : Level,
      transportAccepts env t sev = true →
        sev.priority ≤ (t.levelOverride.getD (loggerLevel env)).priority) := by
  constructor
  · simp [consoleAccepts, transportAccepts, consoleTransport, hthr]
    omega
  · intro t sev h
    simpa [transportAccepts] using h

/-- Witness for C4: in production (threshold `warn`) an `info` record is
suppressed from the console. -/
theorem C4_severity_suppression_witness :
    consoleAccepts "production" Level.info = false :=
  (C4_severity_suppression "production" Level.warn Level.info (by decide)
    (by decide)).1

/-- C8 counterexample: the configuration never fails — the empty environment
string is accepted and treated exactly like any other non-development value
(threshold `warn`), rather than being rejected with a ConfigError. -/
theorem C8_counterexample :
    loggerLevel "" = Level.warn ∧ configure "" = configure "staging" := by
  decide

/-- C8 (amended): the log sink configuration is total — every environment
string, the empty string included, yields the three configured transports and
a threshold of `debug` or `warn`; there is no error condition at all. -/
theorem C8_total_configuration (env : String) :
    (configure env).transports
        = [consoleTransport, errorFileTransport, combinedFileTransport] ∧
    ((configure env).level = Level.debug ∨ (configure env).level = Level.warn) ∧
    (configure "").level = Level.warn := by
  refine ⟨rfl, ?_, by decide⟩
  by_cases h : env = "development" <;> simp [configure, loggerLevel, h]

/-- C2 counterexample: in a non-development, non-production environment the
combined file sink does NOT accept all five levels — `info`, `http` and
`debug` records are rejected, because the transport has no level of its own
and falls back to the logger's `warn`. -/
theorem C2_counterexample :
    combinedFileAccepts "staging" Level.info = false ∧
    combinedFileAccepts "staging" Level.http = false ∧
    combinedFileAccepts "staging" Level.debug = false := by
  decide

/-- C2 (amended): in development both the console and the combined file sink
accept all five levels; in production, and in every other non-development
environment, the console and the combined file sink behave identically and
accept exactly the `error` and `warn` levels. -/
theorem C2_threshold_policy (sev : Level) (env : String) :
    (consoleAccepts "development" sev = true ∧
     combinedFileAccepts "development" sev = true ∧
     (consoleAccepts "production" sev = true ↔
       sev = Level.error ∨ sev = Level.warn) ∧
     (combinedFileAccepts "production" sev = true ↔
       sev = Level.error ∨ sev = Level.warn)) ∧
    (env ≠ "development" →
      consoleAccepts env sev = combinedFileAccepts env sev ∧
      (combinedFileAccepts env sev = true ↔
        sev = Level.error ∨ sev = Level.warn)) := by
  constructor
  · cases sev <;> decide
  · intro h
    have hl := loggerLevel_nondev env h
    refine ⟨rfl, ?_⟩
    cases sev <;>
      simp [combinedFileAccepts, transportAccepts, combinedFileTransport, hl,
        Level.priority]

/-- Witness for C2 in the environment `staging` at severity `warn`. -/
theorem C2_threshold_policy_witness :
    consoleAccepts "staging" Level.warn = combinedFileAccepts "staging" Level.warn ∧
    (combinedFileAccepts "staging" Level.warn = true ↔
      Level.warn = Level.error ∨ Level.warn = Level.warn) :=
  (C2_threshold_policy Level.warn "staging").2 (by decide)

/-- C1 counterexample: the `GET /error` route's response message is the test
error's own message, not "Server Error" — the `message || 'Server Error'`
fallback only applies to an empty message. -/
theorem C1_counterexample :
    (errorResponse "production" errorRouteFailure).message
        = "This is a test error for logging" ∧
    (errorResponse "production" errorRouteFailure).message ≠ "Server Error" := by
  decide

/-- C1 (amended): `GET /error` responds 500 with
`{success: false, error: {message: "This is a test error for logging"}}`,
and the `stack` field is present iff the environment is development. -/
theorem C1_error_route (env : String) :
    (errorResponse env errorRouteFailure).status = 500 ∧
    (errorResponse env errorRouteFailure).success = false ∧
    (errorResponse env errorRouteFailure).message
        = "This is a test error for logging" ∧
    ((errorResponse env errorRouteFailure).stack.isSome ↔ env = "development") := by
  refine ⟨rfl, rfl, rfl, ?_⟩
  by_cases h : env = "development" <;> simp [errorResponse, h]

/-- C3 counterexample: a recognized application error with an empty message
does not keep its own message — the handler's final
`message || 'Server Error'` substitution replaces it, so `classify` disagrees
with the claim's table on `new AppError('', 404)`. -/
theorem C3_counterexample :
    emptyMsgAppError.wellFormed ∧
    classify emptyMsgAppError ≠ specClassify emptyMsgAppError ∧
    (classify emptyMsgAppError).message = "Server Error" ∧
    (specClassify emptyMsgAppError).message = "" ∧
    (classify emptyMsgAppError).statusCode = 404 := by
  decide

/-- C3 (amended): for every failure whose `AppError` flag is consistent with
the `AppError` constructor (which always leaves `name = "Error"`), the
handler's result is the claim's first-match classification table with the
source's two final falsiness substitutions applied to every row: an empty
message becomes "Server Error" and a zero statusCode becomes 500. -/
theorem C3_classification (f : Failure) (hwf : f.wellFormed) :
    classify f = specClassifyAmended f := by
  unfold classify specClassifyAmended
  by_cases hA : f.isAppError = true
  · have hn : f.name = "Error" := hwf hA
    simp [hA, hn]
  · have hA' : f.isAppError = false := by simpa using hA
    by_cases h1 : f.name = "CastError" <;>
      by_cases h2 : f.name = "MongoError" ∧ f.code = some 11000 <;>
        by_cases h3 : f.name = "ValidationError" <;>
          by_cases h4 : f.name = "JsonWebTokenError" <;>
            by_cases h5 : f.name = "TokenExpiredError" <;>
              simp_all

/-- Witness for C3 on a concrete `CastError` failure. -/
theorem C3_classification_witness :
    classify castFailure = specClassifyAmended castFailure :=
  C3_classification castFailure (by decide)

/-- C6: a request matching no route becomes a 404 `AppError` whose message is
`"Route {path} not found"`, it flows through the one `errorHandler` path like
every other failure, and that path logs it exactly once. -/
theorem C6_not_found (env path : String) (req : Req) :
    (errorHandlerRun env (notFoundFailure path) req).2.status = 404 ∧
    (errorHandlerRun env (notFoundFailure path) req).2.message
        = "Route " ++ path ++ " not found" ∧
    (errorHandlerRun env (notFoundFailure path) req).2.success = false ∧
    (errorHandlerRun env (notFoundFailure path) req).1.length = 1 ∧
    (errorHandlerRun env (notFoundFailure path) req).1
        = [errorOccurredRecord (notFoundFailure path) req] := by
  have hne : ¬ ("Route " ++ path ++ " not found" = "") := by
    simp [String.ext_iff, String.data_append]
  refine ⟨?_, ?_, rfl, rfl, rfl⟩
  · simp [errorHandlerRun, errorResponse, classify, notFoundFailure, appError]
  · simp [errorHandlerRun, errorResponse, classify, notFoundFailure, appError,
      hne]

/-- C7: for every key and tier of the admission limiter, a call with no window
or an elapsed window starts a fresh window with count 1 and allows the
request; otherwise the count is incremented and the request is allowed iff
`count ≤ maxRequests`; consequently the first N requests of a fresh window are
allowed and the (N+1)-th request within the unexpired window is denied, where
N is the tier's configured (positive) maximum. -/
theorem C7_admission (tier : Tier) (now : Nat) (w : RateLimitWindow)
    (t0 : Nat) (ts : List Nat)
    (hmax : 0 < tier.maxRequests)
    (hlen : ts.length = tier.maxRequests)
    (hwin : ∀ t ∈ ts, t < t0 + tier.windowMs) :
    tryAdmit tier now none = (true, ⟨now, 1⟩) ∧
    (w.start + tier.windowMs ≤ now →
      tryAdmit tier now (some w) = (true, ⟨now, 1⟩)) ∧
    (now < w.start + tier.windowMs →
      tryAdmit tier now (some w)
        = (decide (w.count + 1 ≤ tier.maxRequests), ⟨w.start, w.count + 1⟩)) ∧
    runRequests tier none (t0 :: ts)
      = List.replicate tier.maxRequests true ++ [false] := by
  refine ⟨rfl, fun h => ?_, fun h => ?_, ?_⟩
  · simp [tryAdmit, h]
  · have h2 : ¬ (w.start + tier.windowMs ≤ now) := by omega
    simp [tryAdmit, h2]
  · simp only [runRequests, tryAdmit]
    rw [runRequests_fills tier t0 ts 1 hwin (by omega) (by omega)]
    obtain ⟨m, hm⟩ : ∃ m, tier.maxRequests = m + 1 :=
      ⟨tier.maxRequests - 1, by omega⟩
    rw [hm]
    simp [List.replicate_succ]

/-- Witness for C7: six rapid requests against the strict tier (cap 5) —
five allowed, the sixth denied. -/
theorem C7_admission_witness :
    runRequests strictTier none [0, 1, 2, 3, 4, 5]
      = List.replicate 5 true ++ [false] :=
  (C7_admission strictTier 0 ⟨0, 1⟩ 0 [1, 2, 3, 4, 5] (by decide) (by decide)
    (by decide)).2.2.2

lemma isStart_incoming (req : Req) : isStartRecord (incomingRecord req) = true :=
  rfl

lemma isFinish_incoming (req : Req) :
    isFinishRecord (incomingRecord req) = false := rfl

lemma isStart_outgoing (req : Req) (s rt : Nat) :
    isStartRecord (outgoingRecord req s rt) = false := rfl

lemma isFinish_outgoing (req : Req) (s rt : Nat) :
    isFinishRecord (outgoingRecord req s rt) = true := rfl

lemma isStart_morgan (env : String) (req : Req) (s : Nat) :
    isStartRecord (morganRecord env req s) = false := rfl

lemma isFinish_morgan (env : String) (req : Req) (s : Nat) :
    isFinishRecord (morganRecord env req s) = false := rfl

lemma isStart_slow (req : Req) (d : Nat) :
    isStartRecord (slowRequestRecord req d) = false := rfl

lemma isFinish_slow (req : Req) (d : Nat) :
    isFinishRecord (slowRequestRecord req d) = false := rfl

lemma slow_filter_start (req : Req) (d : Nat) :
    (slowWarnRecords req d).filter isStartRecord = [] := by
  by_cases h : 1000 < d <;> simp [slowWarnRecords, h, isStart_slow]

lemma slow_filter_finish (req : Req) (d : Nat) :
    (slowWarnRecords req d).filter isFinishRecord = [] := by
  by_cases h : 1000 < d <;> simp [slowWarnRecords, h, isFinish_slow]

lemma morgan_filter_start (env : String) (req : Req) (s : Nat) :
    ((if morganSkip env s then [] else [morganRecord env req s]).filter
      isStartRecord) = [] := by
  by_cases h : morganSkip env s <;> simp [h, isStart_morgan]

lemma morgan_filter_finish (env : String) (req : Req) (s : Nat) :
    ((if morganSkip env s then [] else [morganRecord env req s]).filter
      isFinishRecord) = [] := by
  by_cases h : morganSkip env s <;> simp [h, isFinish_morgan]

/-- C9 counterexample: the start and finish records of one request do not
share the client field — `requestLogger`'s record carries the client address
but `responseLogger`'s `'Outgoing response'` record carries none. -/
theorem C9_counterexample :
    (incomingRecord sampleReq).meta.ip = some "1.2.3.4" ∧
    (outgoingRecord sampleReq 200 5).meta.ip = none := by
  decide

/-- C9 (amended): every request answered exactly once emits exactly one
start record and exactly one finish record, the start record comes first in
the request's trace, and the two records share the request's method and path;
the client address appears only on the start record. -/
theorem C9_request_trace (env : String) (req : Req) (hr : HandlerRun)
    (rt d : Nat) (hsend : hr.sends = 1)
    (hlogs : ∀ r ∈ hr.logs,
      isStartRecord r = false ∧ isFinishRecord r = false) :
    ((requestTrace env req hr rt d).filter isStartRecord).length = 1 ∧
    ((requestTrace env req hr rt d).filter isFinishRecord).length = 1 ∧
    requestTrace env req hr rt d
      = incomingRecord req :: (requestTrace env req hr rt d).tail ∧
    ((requestTrace env req hr rt d).tail.filter isStartRecord = [] ∧
     (requestTrace env req hr rt d).tail.filter isFinishRecord
        = [outgoingRecord req hr.status rt]) ∧
    (incomingRecord req).meta.method
        = (outgoingRecord req hr.status rt).meta.method ∧
    (incomingRecord req).meta.url
        = (outgoingRecord req hr.status rt).meta.url := by
  have hlogsS : hr.logs.filter isStartRecord = [] :=
    List.filter_eq_nil_iff.mpr (fun r hrr => by simp [(hlogs r hrr).1])
  have hlogsF : hr.logs.filter isFinishRecord = [] :=
    List.filter_eq_nil_iff.mpr (fun r hrr => by simp [(hlogs r hrr).2])
  refine ⟨?_, ?_, rfl, ⟨?_, ?_⟩, rfl, rfl⟩ <;>
    simp [requestTrace, hsend, List.filter_append, hlogsS, hlogsF,
      isStart_incoming, isFinish_incoming, isStart_outgoing, isFinish_outgoing,
      morgan_filter_start, morgan_filter_finish, slow_filter_start,
      slow_filter_finish]

/-- Witness for C9: the home route handled once, in production, with no
handler-level records. -/
theorem C9_request_trace_witness :
    ((requestTrace "production" sampleReq ⟨[], 1, 200⟩ 5 10).filter
        isStartRecord).length = 1 ∧
    ((requestTrace "production" sampleReq ⟨[], 1, 200⟩ 5 10).filter
        isFinishRecord).length = 1 :=
  ⟨(C9_request_trace "production" sampleReq ⟨[], 1, 200⟩ 5 10 rfl
      (by simp)).1,
   (C9_request_trace "production" sampleReq ⟨[], 1, 200⟩ 5 10 rfl
      (by simp)).2.1⟩
